import Mathlib

/-!
Verification development for the distributed graph core of the GraphLab
runtime.  The C++ sources under study are shallowly embedded here:

* `graph_local_store.hpp` — the local versioned vertex/edge store
  (`GraphLocalStore`, `add_edge`, `find`, `binary_search`, `finalize`,
  `compute_coloring`, `valid_coloring`, archive `save`/`load`);
* `distributed_graph.hpp` — the distributed fragment (`DGraph`), routing
  accessors (`get_vertex_data`, `num_in_neighbors`, `source`, `target`,
  `rev_edge_id`, `get_edge_data_from_eid`, `set_edge_data_from_eid`), the
  version-gated synchronization primitives
  (`get_vertex_if_version_less_than` and the two edge variants), and the
  `pending_async_updates` counter discipline;
* `messages.hpp` — the `sum` and `max` message combiners;
* `queued_fifo_scheduler.hpp` — the approximate-FIFO multi-queue scheduler
  (`schedule`, `get_next`).

Machine integers are modelled as `Nat` with explicit `% 2^w` truncation at
the points where the C++ bit-width matters (the 62-bit version bitfields,
the 64-bit atomic counter, the 32-bit vertex ids in the coloring
permutation key).  A fatal `assert` / `ASSERT_MSG` is modelled by an
`Option` result, `none` meaning the process aborts.
-/

namespace GLab

/-- Replace the element of `l` at index `i` by `f` of the current element
(reading a default when out of range); out-of-range writes are dropped,
matching the precondition-guarded vector writes of the source. -/
def updNth [Inhabited α] (l : List α) (i : Nat) (f : α → α) : List α :=
  l.set i (f (l.getD i default))

/-- The value `(uint32)(-1)`, produced by `std::make_pair(false, -1)` when
converted to `std::pair<bool, edge_id_type>` in `find`. -/
def U32NEG1 : Nat := 2 ^ 32 - 1

/-- The value `size_t(-1)` returned by `binary_search` on failure. -/
def SIZENEG1 : Nat := 2 ^ 64 - 1

/-- Truncation of a version write into the `uint64_t version:62` bitfield of
`vdata_store` / `edata_store`. -/
def ver62 (v : Nat) : Nat := v % 2 ^ 62

/-- Vertex record: the `vdata_store` struct of `graph_local_store.hpp`
(fields `data`, `modified:1`, `snapshot_made:1`, `version:62`). -/
structure VRecord (VD : Type) where
  data : VD
  modified : Bool
  snapshot_made : Bool
  version : Nat
  deriving Repr, DecidableEq

/-- Edge record: the `edata_store` struct of `graph_local_store.hpp`. -/
structure ERecord (ED : Type) where
  data : ED
  modified : Bool
  snapshot_made : Bool
  version : Nat
  deriving Repr, DecidableEq

instance [Inhabited VD] : Inhabited (VRecord VD) := ⟨⟨default, false, false, 0⟩⟩
instance [Inhabited ED] : Inhabited (ERecord ED) := ⟨⟨default, false, false, 0⟩⟩

/-- The local storage `graph_local_store<VertexData, EdgeData>`.
`vertices` and `edgedata` model the two malloc-allocated record arrays;
`edges` holds the `(source, target)` pair of each edge id; `in_edges` /
`out_edges` are the per-vertex adjacency vectors of edge ids; `vcolors`
the vertex colors.  The backing-file paths and the per-vertex spinlocks
carry no data relevant to the claims and are omitted. -/
structure GraphLocalStore (VD ED : Type) where
  vertices : List (VRecord VD)
  edgedata : List (ERecord ED)
  edges : List (Nat × Nat)
  in_edges : List (List Nat)
  out_edges : List (List Nat)
  vcolors : List Nat
  nvertices : Nat
  nedges : Nat
  finalized : Bool
  changeid : Nat
  deriving Repr, DecidableEq

namespace GraphLocalStore

variable {VD ED : Type}

/-- The `create_store(nv, ne, vertexstorefile, edgestorefile)` call: sizes the
vectors, sets `finalized := true` and `changeid := 0`, and malloc-allocates
the two record arrays.  Malloc leaves the records uninitialized; the
arbitrary contents are passed explicitly as `vfill` / `efill`. -/
def create_store (nv ne : Nat) (vfill : VRecord VD) (efill : ERecord ED) :
    GraphLocalStore VD ED :=
  { vertices := List.replicate nv vfill
    edgedata := List.replicate ne efill
    edges := List.replicate ne (U32NEG1, U32NEG1)
    in_edges := List.replicate nv []
    out_edges := List.replicate nv []
    vcolors := List.replicate nv 0
    nvertices := nv
    nedges := ne
    finalized := true
    changeid := 0 }

/-- The `add_edge(edge_id, source, target)` method.  Fatal (`none`) when
source or target is out of range, when `edge_id >= nedges`, or on a
self-loop; otherwise records the edge, appends the id to
`in_edges[target]` and `out_edges[source]`, and clears `finalized`. -/
def add_edge (g : GraphLocalStore VD ED) (eid s t : Nat) :
    Option (GraphLocalStore VD ED) :=
  if s ≥ g.nvertices ∨ t ≥ g.nvertices then none
  else if eid ≥ g.nedges then none
  else if s = t then none
  else some { g with
    edges := g.edges.set eid (s, t)
    in_edges := updNth g.in_edges t (fun q => q ++ [eid])
    out_edges := updNth g.out_edges s (fun q => q ++ [eid])
    finalized := false }

/-- The private `binary_search(vec, source, target)` loop body, with `fuel`
bounding the iteration count (the loop runs at most `vec.size` iterations,
see the measure `last + 1 - first`).  Both `assert(mid < vec.size())` and
`assert(mid > 0)` abort (`none`) on failure.  On miss with
`first == last` the function returns `size_t(-1)`. -/
def binary_search_loop (edges : List (Nat × Nat)) (vec : List Nat)
    (s t : Nat) : Nat → Nat → Nat → Option Nat
  | 0, _, _ => none
  | fuel + 1, first, last =>
    if first ≤ last then
      let mid := (first + last) / 2
      if mid < vec.length then
        let e := edges.getD (vec.getD mid 0) (U32NEG1, U32NEG1)
        if e.1 = s ∧ e.2 = t then some mid
        else if first = last then some SIZENEG1
        else if s < e.1 ∨ (s = e.1 ∧ t < e.2) then
          if 0 < mid then binary_search_loop edges vec s t fuel first (mid - 1)
          else none
        else binary_search_loop edges vec s t fuel (mid + 1) last
      else none
    else some SIZENEG1

/-- The private `binary_search` helper: asserts the store is finalized, then
runs the loop from `first = 0`, `last = vec.size() - 1`. -/
def binary_search (g : GraphLocalStore VD ED) (vec : List Nat) (s t : Nat) :
    Option Nat :=
  if g.finalized then
    binary_search_loop g.edges vec s t (vec.length + 2) 0 (vec.length - 1)
  else none

/-- Linear scan used by the non-finalized branch of `find`: walks the given
adjacency vector and returns the first edge id whose endpoints match;
`assert(eid < nedges)` aborts on a stale id. -/
def find_linear (g : GraphLocalStore VD ED) (s t : Nat) :
    List Nat → Option (Bool × Nat)
  | [] => some (false, U32NEG1)
  | eid :: rest =>
    if eid < g.nedges then
      let e := g.edges.getD eid (U32NEG1, U32NEG1)
      if e.1 = s ∧ e.2 = t then some (true, eid)
      else find_linear g s t rest
    else none

/-- The `find(source, target)` method: empty-adjacency fast path, then
binary search over the shorter adjacency vector when finalized, linear
scan over the shorter vector otherwise. -/
def find (g : GraphLocalStore VD ED) (s t : Nat) : Option (Bool × Nat) :=
  let inT := g.in_edges.getD t []
  let outS := g.out_edges.getD s []
  if inT.length = 0 ∨ outS.length = 0 then some (false, U32NEG1)
  else if g.finalized then
    if inT.length < outS.length then
      match g.binary_search inT s t with
      | none => none
      | some idx =>
        if idx < inT.length then some (true, inT.getD idx 0)
        else some (false, U32NEG1)
    else
      match g.binary_search outS s t with
      | none => none
      | some idx =>
        if idx < outS.length then some (true, outS.getD idx 0)
        else some (false, U32NEG1)
  else
    if inT.length < outS.length then find_linear g s t inT
    else find_linear g s t outS

/-- The unchecked `edge_id(source, target)` accessor: `find` plus
`assert(res.first)` and `assert(res.second < nedges)`. -/
def edge_id (g : GraphLocalStore VD ED) (s t : Nat) : Option Nat := do
  let res ← g.find s t
  if res.1 ∧ res.2 < g.nedges then pure res.2 else none

/-- The `rev_edge_id(eid)` method: asserts `eid < nedges`, reads the edge
endpoints and looks up the reversed pair with `edge_id`. -/
def rev_edge_id (g : GraphLocalStore VD ED) (eid : Nat) : Option Nat :=
  if eid < g.nedges then
    let e := g.edges.getD eid (U32NEG1, U32NEG1)
    g.edge_id e.2 e.1
  else none

/-- The `source(edge_id)` accessor (`assert(edge_id < nedges)`). -/
def sourceV (g : GraphLocalStore VD ED) (eid : Nat) : Option Nat :=
  if eid < g.nedges then some (g.edges.getD eid (U32NEG1, U32NEG1)).1 else none

/-- The `target(edge_id)` accessor (`assert(edge_id < nedges)`). -/
def targetV (g : GraphLocalStore VD ED) (eid : Nat) : Option Nat :=
  if eid < g.nedges then some (g.edges.getD eid (U32NEG1, U32NEG1)).2 else none

/-- The `vertex_data(v)` accessor (`assert(v < nvertices)`). -/
def vertex_data [Inhabited VD] (g : GraphLocalStore VD ED) (v : Nat) :
    Option VD :=
  if v < g.nvertices then some ((g.vertices.getD v default).data) else none

/-- The `vertex_version(v)` accessor (`assert(v < nvertices)`). -/
def vertex_version [Inhabited VD] (g : GraphLocalStore VD ED) (v : Nat) :
    Option Nat :=
  if v < g.nvertices then some ((g.vertices.getD v default).version) else none

/-- The `vertex_modified(v)` accessor (`assert(v < nvertices)`). -/
def vertex_modified [Inhabited VD] (g : GraphLocalStore VD ED) (v : Nat) :
    Option Bool :=
  if v < g.nvertices then some ((g.vertices.getD v default).modified)
  else none

/-- Plain write through the `vertex_data(v)` reference
(`localstore.vertex_data(localvid) = ...`): only the payload changes. -/
def write_vertex_data [Inhabited VD] (g : GraphLocalStore VD ED) (v : Nat)
    (d : VD) : Option (GraphLocalStore VD ED) :=
  if v < g.nvertices then
    some { g with vertices := updNth g.vertices v (fun r => { r with data := d }) }
  else none

/-- Record update performed by `set_vertex_version`: store the version into
the 62-bit field and clear `snapshot_made`. -/
def bumpV (ver : Nat) (r : VRecord VD) : VRecord VD :=
  { r with version := ver62 ver, snapshot_made := false }

/-- Record update performed by `set_edge_version`. -/
def bumpE (ver : Nat) (r : ERecord ED) : ERecord ED :=
  { r with version := ver62 ver, snapshot_made := false }

/-- The `set_vertex_version(v, version)` method: stores the version (into
the 62-bit field) and clears `snapshot_made`. -/
def set_vertex_version [Inhabited VD] (g : GraphLocalStore VD ED)
    (v ver : Nat) : Option (GraphLocalStore VD ED) :=
  if v < g.nvertices then
    some { g with vertices := updNth g.vertices v (bumpV ver) }
  else none

/-- The `edge_data(edge_id)` accessor (`assert(edge_id < nedges)`). -/
def edge_data [Inhabited ED] (g : GraphLocalStore VD ED) (eid : Nat) :
    Option ED :=
  if eid < g.nedges then some ((g.edgedata.getD eid default).data) else none

/-- The `edge_version(edge_id)` accessor (`assert(edge_id < nedges)`). -/
def edge_version [Inhabited ED] (g : GraphLocalStore VD ED) (eid : Nat) :
    Option Nat :=
  if eid < g.nedges then some ((g.edgedata.getD eid default).version)
  else none

/-- The `edge_modified(edge_id)` accessor (`assert(edge_id < nedges)`). -/
def edge_modified [Inhabited ED] (g : GraphLocalStore VD ED) (eid : Nat) :
    Option Bool :=
  if eid < g.nedges then some ((g.edgedata.getD eid default).modified)
  else none

/-- Plain write through the `edge_data(edge_id)` reference. -/
def write_edge_data [Inhabited ED] (g : GraphLocalStore VD ED) (eid : Nat)
    (d : ED) : Option (GraphLocalStore VD ED) :=
  if eid < g.nedges then
    some { g with edgedata := updNth g.edgedata eid (fun r => { r with data := d }) }
  else none

/-- The `set_edge_version(edge_id, version)` method: stores the version and
clears `snapshot_made`. -/
def set_edge_version [Inhabited ED] (g : GraphLocalStore VD ED)
    (eid ver : Nat) : Option (GraphLocalStore VD ED) :=
  if eid < g.nedges then
    some { g with edgedata := updNth g.edgedata eid (bumpE ver) }
  else none

/-- The lexicographic `(source, target)` comparison of two edge ids used by
the `edge_id_less_functor` during `finalize` (`edges[a] < edges[b]`). -/
def edge_id_less (g : GraphLocalStore VD ED) (a b : Nat) : Bool :=
  let ea := g.edges.getD a (U32NEG1, U32NEG1)
  let eb := g.edges.getD b (U32NEG1, U32NEG1)
  decide (ea.1 < eb.1 ∨ (ea.1 = eb.1 ∧ ea.2 < eb.2))

/-- Insert one element into a list sorted by the strict order `lt`. -/
def insertLt (lt : Nat → Nat → Bool) (a : Nat) : List Nat → List Nat
  | [] => [a]
  | b :: rest => if lt a b then a :: b :: rest else b :: insertLt lt a rest

/-- Insertion sort by the strict order `lt`; agrees with `std::sort` on
lists whose keys are pairwise distinct, as they are in the adjacency
vectors being sorted. -/
def sortLt (lt : Nat → Nat → Bool) : List Nat → List Nat
  | [] => []
  | a :: rest => insertLt lt a (sortLt lt rest)

/-- The `finalize()` method: no-op when already finalized, otherwise sorts
every `in_edges[i]` and `out_edges[i]` by the `(source, target)` key of
the referenced edges and sets `finalized := true`. -/
def finalize (g : GraphLocalStore VD ED) : GraphLocalStore VD ED :=
  if g.finalized then g
  else { g with
    in_edges := g.in_edges.map (sortLt (edge_id_less g))
    out_edges := g.out_edges.map (sortLt (edge_id_less g))
    finalized := true }

/-- The `color(v)` accessor (`assert(vertex < nvertices)`). -/
def colorOf (g : GraphLocalStore VD ED) (v : Nat) : Option Nat :=
  if v < g.nvertices then some (g.vcolors.getD v 0) else none

/-- The first component of the pair `compute_coloring` sorts by:
`-num_in_neighbors(v)` computed in `size_t` and narrowed to the 32-bit
`vertex_id_type`, i.e. `(2^32 - indegree) % 2^32`. -/
def permKey (g : GraphLocalStore VD ED) (v : Nat) : Nat :=
  (2 ^ 32 - (g.in_edges.getD v []).length % 2 ^ 32) % 2 ^ 32

/-- Strict `operator<` on `std::pair<vertex_id_type, vertex_id_type>`. -/
def pairLt (a b : Nat × Nat) : Bool :=
  decide (a.1 < b.1 ∨ (a.1 = b.1 ∧ a.2 < b.2))

/-- Insert into a sorted pair list (for `std::sort` over the permutation;
keys are pairwise distinct since the second components are). -/
def insertPair (a : Nat × Nat) : List (Nat × Nat) → List (Nat × Nat)
  | [] => [a]
  | b :: rest => if pairLt a b then a :: b :: rest else b :: insertPair a rest

/-- Sort of the coloring permutation. -/
def sortPairs : List (Nat × Nat) → List (Nat × Nat)
  | [] => []
  | a :: rest => insertPair a (sortPairs rest)

/-- Insertion into the `std::set<vertex_color_type> neighbor_colors`
(sorted, duplicates collapsed). -/
def setInsert (c : Nat) : List Nat → List Nat
  | [] => [c]
  | b :: rest =>
    if c < b then c :: b :: rest
    else if c = b then b :: rest
    else b :: setInsert c rest

/-- The lowest-free-color loop of `compute_coloring`: walk the sorted
neighbor-color set; stop at the first gap, otherwise increment.  The
`assert(vertex_color != 0)` after the 32-bit increment aborts on
wrap-around. -/
def mexFrom : Nat → List Nat → Option Nat
  | c, [] => some c
  | c, nc :: rest =>
    if c ≠ nc then some c
    else if c + 1 = 2 ^ 32 then none
    else mexFrom (c + 1) rest

/-- One iteration of the recoloring loop of `compute_coloring`: gather the
in-neighbors' colors (each access asserting its index), pick the lowest
free color for `vid`, and track the running maximum color. -/
def compute_coloring_step (g : GraphLocalStore VD ED)
    (st : List Nat × Nat) (vid : Nat) : Option (List Nat × Nat) := do
  let colors := st.1
  let ncs ← (g.in_edges.getD vid []).foldlM (fun s eid => do
      let src ← g.sourceV eid
      let nc ← (if src < g.nvertices then some (colors.getD src 0) else none)
      pure (setInsert nc s)) ([] : List Nat)
  let c0 ← (if vid < g.nvertices then some (colors.getD vid 0) else none)
  let c ← mexFrom c0 ncs
  pure (colors.set vid c, max st.2 c)

/-- The `compute_coloring()` method: reset all colors to 0, sort the
vertices by the pair `(-indegree (narrowed to uint32), vid)`, greedily
recolor in that order avoiding only in-neighbor colors, and return the
number of colors used together with the recolored store. -/
def compute_coloring (g : GraphLocalStore VD ED) :
    Option (Nat × GraphLocalStore VD ED) := do
  let colors0 := List.replicate g.nvertices 0
  let perm := sortPairs ((List.range g.nvertices).map (fun v => (permKey g v, v)))
  let st ← perm.foldlM (fun st p => compute_coloring_step g st p.2)
    (colors0, (0 : Nat))
  pure (st.2 + 1, { g with vcolors := st.1 })

/-- Inner loop of `valid_coloring`: scan the in-edges of a vertex of color
`vc`, returning `false` at the first equally-colored in-neighbor. -/
def valid_edge_scan (g : GraphLocalStore VD ED) (vc : Nat) :
    List Nat → Option Bool
  | [] => some true
  | eid :: rest => do
    let src ← g.sourceV eid
    let nc ← (if src < g.nvertices then some (g.vcolors.getD src 0) else none)
    if vc = nc then pure false else valid_edge_scan g vc rest

/-- Outer loop of `valid_coloring` over the vertex ids. -/
def valid_scan (g : GraphLocalStore VD ED) : List Nat → Option Bool
  | [] => some true
  | vid :: rest => do
    let vc ← g.colorOf vid
    let ok ← valid_edge_scan g vc (g.in_edges.getD vid [])
    if ok then valid_scan g rest else pure false

/-- The `valid_coloring()` method: true iff no in-edge connects two
equally-colored vertices. -/
def valid_coloring (g : GraphLocalStore VD ED) : Option Bool :=
  valid_scan g (List.range g.nvertices)

end GraphLocalStore

/-- Build a store by `create_store` followed by a sequence of `add_edge`
calls (the construction path named by the claims); payloads are the
malloc-uninitialized defaults, which none of the structural operations
read. -/
def build_store (nv ne : Nat) (es : List (Nat × Nat × Nat)) :
    Option (GraphLocalStore Nat Nat) :=
  es.foldlM (fun g e => g.add_edge e.1 e.2.1 e.2.2)
    (GraphLocalStore.create_store nv ne default default)

/-!
Archive serialization (`save(oarchive&)` / `load(iarchive&)` of
`graph_local_store.hpp`).  The structured fields are streamed with the
archive operators; the two record arrays are written as raw memory:
`serialize(arc, vertices, sizeof(VertexData) * nvertices)` — note the
byte count uses `sizeof(VertexData)`, while the array itself was
allocated by `allocate_graph_data` with `sizeof(vdata_store) * nvertices`
bytes (`vdata_store` = the payload plus the 8-byte `modified` /
`snapshot_made` / `version:62` bitfield word, as `zero_all` confirms with
its `sizeof(vdata_store)` memset).  We instantiate the template at an
8-byte POD payload (`VertexData = EdgeData = uint64`, encoded
little-endian), for which `sizeof(vdata_store) = 16` with no padding.
-/

/-- Bytes of a 64-bit word, little-endian. -/
def le64 (d : Nat) : List Nat :=
  (List.range 8).map (fun i => d / 256 ^ i % 256)

/-- Read back a 64-bit little-endian word. -/
def de64 (bs : List Nat) : Nat :=
  ((bs.take 8).reverse).foldl (fun acc b => acc * 256 + b % 256) 0

/-- The trailing 8 bytes of a `vdata_store` / `edata_store` record: the
`modified:1`, `snapshot_made:1`, `version:62` bitfields packed into one
64-bit word (bit 0 = modified, bit 1 = snapshot_made, bits 2-63 =
version; the exact packing is compiler-chosen and irrelevant to the
claims, which only depend on these bytes lying beyond the payload). -/
def flagsWord (m s : Bool) (ver : Nat) : Nat :=
  m.toNat + 2 * s.toNat + 4 * (ver % 2 ^ 62)

/-- In-memory bytes of one `vdata_store` record (payload, then flags). -/
def encVRec (r : VRecord Nat) : List Nat :=
  le64 (r.data % 2 ^ 64) ++ le64 (flagsWord r.modified r.snapshot_made r.version)

/-- In-memory bytes of one `edata_store` record. -/
def encERec (r : ERecord Nat) : List Nat :=
  le64 (r.data % 2 ^ 64) ++ le64 (flagsWord r.modified r.snapshot_made r.version)

/-- Reinterpret 16 bytes of arena memory as a `vdata_store` record. -/
def decVRec (bs : List Nat) : VRecord Nat :=
  let f := de64 (bs.drop 8)
  ⟨de64 (bs.take 8), f % 2 = 1, f / 2 % 2 = 1, f / 4⟩

/-- Reinterpret 16 bytes of arena memory as an `edata_store` record. -/
def decERec (bs : List Nat) : ERecord Nat :=
  let f := de64 (bs.drop 8)
  ⟨de64 (bs.take 8), f % 2 = 1, f / 2 % 2 = 1, f / 4⟩

/-- Split a byte list into the consecutive 16-byte record slots of an
arena (fuelled by the list length, hence total and computable). -/
def chunksF : Nat → List Nat → List (List Nat)
  | 0, _ => []
  | _, [] => []
  | n + 1, l => l.take 16 :: chunksF n (l.drop 16)

/-- All 16-byte record slots of an arena. -/
def chunks16 (l : List Nat) : List (List Nat) := chunksF l.length l

/-- The malloc-backed vertex record arena of a store
(`nvertices * sizeof(vdata_store)` bytes). -/
def varena (g : GraphLocalStore Nat Nat) : List Nat :=
  (g.vertices.map encVRec).flatten

/-- The malloc-backed edge record arena of a store. -/
def earena (g : GraphLocalStore Nat Nat) : List Nat :=
  (g.edgedata.map encERec).flatten

/-- The archive written by `save(oarchive&)`: the streamed structured
fields followed by the two raw blobs of `sizeof(VertexData) * nvertices`
resp. `sizeof(EdgeData) * nedges` bytes. -/
structure GArchive where
  anvertices : Nat
  anedges : Nat
  aedges : List (Nat × Nat)
  ain_edges : List (List Nat)
  aout_edges : List (List Nat)
  avcolors : List Nat
  afinalized : Bool
  vblob : List Nat
  eblob : List Nat
  deriving Repr, DecidableEq

/-- The `save(oarchive&)` method of `graph_local_store`. -/
def save_arc (g : GraphLocalStore Nat Nat) : GArchive :=
  { anvertices := g.nvertices
    anedges := g.nedges
    aedges := g.edges
    ain_edges := g.in_edges
    aout_edges := g.out_edges
    avcolors := g.vcolors
    afinalized := g.finalized
    vblob := (varena g).take (8 * g.nvertices)
    eblob := (earena g).take (8 * g.nedges) }

/-- The `clear()` method: drops the structure vectors, re-marks the store
finalized and bumps `changeid`. -/
def clearStore (g : GraphLocalStore Nat Nat) : GraphLocalStore Nat Nat :=
  { g with edges := [], in_edges := [], out_edges := [], vcolors := []
           finalized := true, changeid := g.changeid + 1 }

/-- The `load(iarchive&)` method: `clear()`, stream the structured fields
back, `allocate_graph_data()` (malloc — the fresh arena contents `vfill`
/ `efill` are arbitrary), then `deserialize` overwrites only the first
`sizeof(VertexData) * nvertices` resp. `sizeof(EdgeData) * nedges` bytes
of the arenas. -/
def load_arc (g0 : GraphLocalStore Nat Nat) (arc : GArchive)
    (vfill efill : List Nat) : GraphLocalStore Nat Nat :=
  let g1 := clearStore g0
  let newvarena :=
    arc.vblob.take (8 * arc.anvertices) ++
      (vfill.take (16 * arc.anvertices)).drop (8 * arc.anvertices)
  let newearena :=
    arc.eblob.take (8 * arc.anedges) ++
      (efill.take (16 * arc.anedges)).drop (8 * arc.anedges)
  { g1 with
    nvertices := arc.anvertices
    nedges := arc.anedges
    edges := arc.aedges
    in_edges := arc.ain_edges
    out_edges := arc.aout_edges
    vcolors := arc.avcolors
    finalized := arc.afinalized
    vertices := (chunks16 newvarena).map decVRec
    edgedata := (chunks16 newearena).map decERec }

/-!
The example message combiners of `messages.hpp`.  The `double prio`
priorities are modelled as rationals (exact arithmetic; the claims are
about the combining rule, not IEEE rounding).
-/

/-- The `messages::sum` message type. -/
structure SumMsg where
  prio : Rat
  deriving DecidableEq, Repr

/-- The `messages::max` message type. -/
structure MaxMsg where
  prio : Rat
  deriving DecidableEq, Repr

/-- The `sum& operator+=(const sum& other)` of `messages::sum`: adds the
priorities. -/
def sumIadd (m other : SumMsg) : SumMsg := ⟨m.prio + other.prio⟩

/-- The `max& operator+=(const sum& other)` of `messages::max`: takes the
larger priority.  Note the right operand is declared with type
`messages::sum` in the source — not `messages::max` — so this operator
cannot combine two `max` messages. -/
def maxIadd (m : MaxMsg) (other : SumMsg) : MaxMsg :=
  ⟨max m.prio other.prio⟩

/-!
The distributed graph fragment of `distributed_graph.hpp`: the local
store plus the global/local identifier maps, the per-local-vertex owner
vector, the canonical-numbering flag, and the local view of the two
caching DHTs (`globalvid2owner`, `globaleid2owner`, modelled by their
association lists; `get_cached` either finds the owner or — after the
miss path — trips `assert(vidowner.first)`).
-/

structure DGraph (VD ED : Type) where
  localstore : GraphLocalStore VD ED
  global2localvid : List (Nat × Nat)
  local2globalvid : List Nat
  global2localeid : List (Nat × Nat)
  local2globaleid : List Nat
  globalvid2owner : List (Nat × Nat)
  globaleid2owner : List (Nat × Nat)
  edge_canonical_numbering : Bool
  localvid2owner : List Nat
  procid : Nat
  deriving Repr, DecidableEq

/-- Result of a routed accessor: served from the local fragment, or sent
as one RPC (`remote_request` / `remote_call`) to the named peer. -/
inductive Routed (α : Type) where
  | loc (a : α)
  | rpc (dest : Nat)
  deriving Repr, DecidableEq

namespace DGraph

variable {VD ED : Type}

/-- The remote tail shared by the edge-by-EID operations: first
`ASSERT_MSG(edge_canonical_numbering == false, ...)` (fatal under
canonical numbering), then the `globaleid2owner.get_cached` lookup with
`assert(eidowner.first)`, yielding the RPC destination. -/
def eid_remote (g : DGraph VD ED) (eid : Nat) : Option Nat :=
  if g.edge_canonical_numbering then none
  else List.lookup eid g.globaleid2owner

/-- The `get_vertex_data(vid)` accessor: when the vertex is anywhere in the
local fragment — interior or ghost — it is served from the local store
(`vertex_data(vid)` only asserts fragment membership); otherwise the
owner is resolved in the vertex DHT and one `remote_request` is sent. -/
def get_vertex_data [Inhabited VD] (g : DGraph VD ED) (vid : Nat) :
    Option (Routed VD) :=
  match List.lookup vid g.global2localvid with
  | some localvid => (g.localstore.vertex_data localvid).map Routed.loc
  | none => (List.lookup vid g.globalvid2owner).map Routed.rpc

/-- The `num_in_neighbors(vid)` accessor: served locally only when the
vertex is in the fragment and owned by this machine; otherwise resolved
through the vertex DHT and forwarded as one `remote_request`. -/
def num_in_neighbors (g : DGraph VD ED) (vid : Nat) : Option (Routed Nat) :=
  match List.lookup vid g.global2localvid with
  | some localvid =>
    if g.localvid2owner.getD localvid 0 = g.procid then
      if localvid < g.localstore.nvertices then
        some (Routed.loc (g.localstore.in_edges.getD localvid []).length)
      else none
    else (List.lookup vid g.globalvid2owner).map Routed.rpc
  | none => (List.lookup vid g.globalvid2owner).map Routed.rpc

/-- The `source(eid)` accessor of the fragment: local fragment hit maps
back through `local2globalvid`; otherwise remote by edge id. -/
def sourceD (g : DGraph VD ED) (eid : Nat) : Option (Routed Nat) :=
  match List.lookup eid g.global2localeid with
  | some localeid =>
    (g.localstore.sourceV localeid).map
      (fun s => Routed.loc (g.local2globalvid.getD s 0))
  | none => (eid_remote g eid).map Routed.rpc

/-- The `target(eid)` accessor of the fragment. -/
def targetD (g : DGraph VD ED) (eid : Nat) : Option (Routed Nat) :=
  match List.lookup eid g.global2localeid with
  | some localeid =>
    (g.localstore.targetV localeid).map
      (fun t => Routed.loc (g.local2globalvid.getD t 0))
  | none => (eid_remote g eid).map Routed.rpc

/-- The `rev_edge_id(eid)` accessor of the fragment: the local hit asks the
local store to reverse (which itself asserts the reverse edge exists)
and maps back through `local2globaleid`. -/
def rev_edge_idD (g : DGraph VD ED) (eid : Nat) : Option (Routed Nat) :=
  match List.lookup eid g.global2localeid with
  | some localeid =>
    (g.localstore.rev_edge_id localeid).map
      (fun r => Routed.loc (g.local2globaleid.getD r 0))
  | none => (eid_remote g eid).map Routed.rpc

/-- The `get_edge_data_from_eid(eid)` accessor: fragment hit reads
`edge_data(eid)`; otherwise remote by edge id. -/
def get_edge_data_from_eid [Inhabited ED] (g : DGraph VD ED) (eid : Nat) :
    Option (Routed ED) :=
  match List.lookup eid g.global2localeid with
  | some localeid => (g.localstore.edge_data localeid).map Routed.loc
  | none => (eid_remote g eid).map Routed.rpc

/-- The `set_edge_data_from_eid(eid, edata, async)` method: the write is
served locally only when the edge is in the fragment AND the target
vertex is owned by this machine; every other case falls through to the
remote tail (fatal under canonical numbering).  The `async` flag merely
selects `remote_call` over `remote_request` for the same destination. -/
def set_edge_data_from_eid [Inhabited ED] (g : DGraph VD ED) (eid : Nat)
    (edata : ED) (_asyncFlag : Bool) : Option (Routed (DGraph VD ED)) :=
  match List.lookup eid g.global2localeid with
  | some localeid =>
    match g.localstore.targetV localeid with
    | none => none
    | some tgt =>
      if g.localvid2owner.getD tgt 0 = g.procid then
        (g.localstore.write_edge_data localeid edata).map
          (fun ls => Routed.loc { g with localstore := ls })
      else (eid_remote g eid).map Routed.rpc
  | none => (eid_remote g eid).map Routed.rpc

/-- A conditional store (`conditional_store<std::pair<Data, uint64_t>>`):
`hasdata` plus a `(payload, version)` pair.  When a branch of the source
leaves the pair untouched it holds the value-initialized
`(Data(), 0)`. -/
structure CondStore (D : Type) where
  hasdata : Bool
  data : D × Nat
  deriving Repr, DecidableEq

/-- The owner-side `get_vertex_if_version_less_than(vid, vertexversion,
vdata)` primitive: version strictly above the ghost's returns the
owner's `(data, version)`; strictly below adopts the ghost's payload
(asserting `vdata.hasdata`) and raises the stored version; equal
versions return no data and change nothing.  The missing-key behaviour
of `global2localvid[vid]` (operator[] default-inserts 0) is the
`getD 0`. -/
def get_vertex_if_version_less_than [Inhabited VD] (g : DGraph VD ED)
    (vid vertexversion : Nat) (vdata : CondStore VD) :
    Option (CondStore VD × DGraph VD ED) := do
  let localvid := (List.lookup vid g.global2localvid).getD 0
  let lv ← g.localstore.vertex_version localvid
  if vertexversion < lv then
    let d ← g.localstore.vertex_data localvid
    pure (⟨true, (d, lv)⟩, g)
  else if lv < vertexversion then
    if vdata.hasdata then do
      let ls1 ← g.localstore.write_vertex_data localvid vdata.data.1
      let ls2 ← ls1.set_vertex_version localvid vertexversion
      pure (⟨false, (default, 0)⟩, { g with localstore := ls2 })
    else none
  else pure (⟨false, (default, 0)⟩, g)

/-- The owner-side `get_edge_if_version_less_than(eid, edgeversion, edata)`
primitive (by global edge id). -/
def get_edge_if_version_less_than [Inhabited ED] (g : DGraph VD ED)
    (eid edgeversion : Nat) (edata : CondStore ED) :
    Option (CondStore ED × DGraph VD ED) := do
  let localeid := (List.lookup eid g.global2localeid).getD 0
  let lv ← g.localstore.edge_version localeid
  if edgeversion < lv then
    let d ← g.localstore.edge_data localeid
    pure (⟨true, (d, lv)⟩, g)
  else if lv < edgeversion then
    if edata.hasdata then do
      let ls1 ← g.localstore.write_edge_data localeid edata.data.1
      let ls2 ← ls1.set_edge_version localeid edgeversion
      pure (⟨false, (default, 0)⟩, { g with localstore := ls2 })
    else none
  else pure (⟨false, (default, 0)⟩, g)

/-- The owner-side `get_edge_if_version_less_than2(source, target,
edgeversion, edata)` primitive (by vertex pair): resolves the local edge
with `find` (asserting it is found), then applies the same rule. -/
def get_edge_if_version_less_than2 [Inhabited ED] (g : DGraph VD ED)
    (src tgt edgeversion : Nat) (edata : CondStore ED) :
    Option (CondStore ED × DGraph VD ED) := do
  let localsource := (List.lookup src g.global2localvid).getD 0
  let localtarget := (List.lookup tgt g.global2localvid).getD 0
  let findret ← g.localstore.find localsource localtarget
  if findret.1 then
    let localeid := findret.2
    let lv ← g.localstore.edge_version localeid
    if edgeversion < lv then
      let d ← g.localstore.edge_data localeid
      pure (⟨true, (d, lv)⟩, g)
    else if lv < edgeversion then
      if edata.hasdata then do
        let ls1 ← g.localstore.write_edge_data localeid edata.data.1
        let ls2 ← ls1.set_edge_version localeid edgeversion
        pure (⟨false, (default, 0)⟩, { g with localstore := ls2 })
      else none
    else pure (⟨false, (default, 0)⟩, g)
  else none

/-- The `is_ghost(vid)` predicate:
`localvid2owner[global2localvid[vid]] != procid`. -/
def is_ghost (g : DGraph VD ED) (vid : Nat) : Bool :=
  g.localvid2owner.getD ((List.lookup vid g.global2localvid).getD 0) 0
    != g.procid

end DGraph

/-!
The asynchronous synchronization path and its
`atomic<size_t> pending_async_updates` counter.  The guard of
`wait_for_all_async_syncs()` spins while the counter is nonzero; the
reply handlers (`reply_vertex_data_and_version` and its four siblings)
each merge and then `pending_async_updates.dec()`.
-/

/-- The 64-bit wrap-around decrement of `atomic<size_t>::dec()`. -/
def atomicDec (c : Nat) : Nat := (c + (2 ^ 64 - 1)) % 2 ^ 64

/-- Caller-side state relevant to the asynchronous protocol: the fragment
plus the `pending_async_updates` counter. -/
structure AsyncCallerState (VD ED : Type) where
  graph : DGraph VD ED
  pending_async_updates : Nat
  deriving Repr, DecidableEq

/-- The one-way RPC fired by the `async == true` branch of
`synchronize_vertex`: destination owner, reply-to proc, vertex id, local
version, and the conditional ghost payload. -/
structure FiredVertexSync (VD : Type) where
  dest : Nat
  srcproc : Nat
  vid : Nat
  vertexversion : Nat
  vdata : DGraph.CondStore VD
  deriving Repr, DecidableEq

/-- The `async == true` branch of `synchronize_vertex(vid, async)` (source
lines 772-798): when the vertex is a ghost, build the conditional store
`out` from the modified flag and fire the one-way `remote_call`.  The
branch performs NO operation on `pending_async_updates` — no increment
appears anywhere in `distributed_graph.hpp` — so the caller state is
returned with its counter untouched. -/
def synchronize_vertex_async_fire [Inhabited VD]
    (s : AsyncCallerState VD ED) (vid : Nat) :
    Option (AsyncCallerState VD ED × Option (FiredVertexSync VD)) := do
  let g := s.graph
  let localvid := (List.lookup vid g.global2localvid).getD 0
  if DGraph.is_ghost g vid then do
    let m ← g.localstore.vertex_modified localvid
    let d ← (if m then g.localstore.vertex_data localvid else pure default)
    let ver ← g.localstore.vertex_version localvid
    pure (s, some ⟨g.localvid2owner.getD localvid 0, g.procid, vid, ver,
                   ⟨m, (d, 0)⟩⟩)
  else pure (s, none)

/-- The caller-side merge `update_vertex_data_and_version(vid, vstore)`:
when the reply carries data, overwrite the local replica's payload and
version (the source writes the version through the by-value
`vertex_version` accessor; modelled as the intended field write into the
62-bit version field). -/
def update_vertex_data_and_version [Inhabited VD]
    (g : DGraph VD ED) (vid : Nat) (vstore : DGraph.CondStore VD) :
    Option (DGraph VD ED) :=
  if vstore.hasdata then do
    let localvid := (List.lookup vid g.global2localvid).getD 0
    let ls1 ← g.localstore.write_vertex_data localvid vstore.data.1
    let f := fun (r : VRecord VD) => { r with version := ver62 vstore.data.2 }
    if localvid < ls1.nvertices then
      pure { g with localstore := { ls1 with vertices := updNth ls1.vertices localvid f } }
    else none
  else pure g

/-- The reply handler `reply_vertex_data_and_version(vid, vstore)`: merge
the response, then `pending_async_updates.dec()`. -/
def reply_vertex_data_and_version [Inhabited VD]
    (s : AsyncCallerState VD ED) (vid : Nat)
    (vstore : DGraph.CondStore VD) : Option (AsyncCallerState VD ED) := do
  let g ← update_vertex_data_and_version s.graph vid vstore
  pure ⟨g, atomicDec s.pending_async_updates⟩

/-- The loop guard of `wait_for_all_async_syncs()`:
`while (pending_async_updates.value != 0) sched_yield();` — the call
returns only once the counter reaches zero. -/
def wait_guard (pending : Nat) : Bool := pending != 0

/-!
The approximate-FIFO multi-queue scheduler of
`queued_fifo_scheduler.hpp`.  The `vertex_map<message_type> messages`
container lives in `vertex_map.hpp`, which is not among the sources; it
is modelled from the spec below.
-/

/-- Modelled from the spec: the `VertexMessageMap` (`vertex_map`) of
§4.5 — a `VertexId → Message` mapping where `add(v, m)` combines via the
message combiner and returns true iff the vertex was not already
scheduled.  Missing source: `graphlab/scheduler/vertex_map.hpp`. -/
def vmap_add (combine : Msg → Msg → Msg) (m : List (Option Msg))
    (vid : Nat) (msg : Msg) : Bool × List (Option Msg) :=
  match m.getD vid none with
  | none => (true, m.set vid (some msg))
  | some old => (false, m.set vid (some (combine old msg)))

/-- Modelled from the spec: `messages.test_and_get(v, m)` — retrieve and
drain the message slot of `v`, succeeding iff a message was present
(§4.5 dequeue step 3 and P5 at-most-once delivery).  Missing source:
`graphlab/scheduler/vertex_map.hpp`. -/
def vmap_test_and_get (m : List (Option Msg)) (vid : Nat) :
    Option Msg × List (Option Msg) :=
  match m.getD vid none with
  | some msg => (some msg, m.set vid none)
  | none => (none, m)

/-- Status returned by `get_next` (`sched_status::status_enum` restricted
to the two values the scheduler produces). -/
inductive SchedStatus (Msg : Type) where
  | newTask (vid : Nat) (msg : Msg)
  | empty
  deriving Repr, DecidableEq

/-- The `queued_fifo_scheduler<Message>` state: the message map, the
shared master queue of sub-queues, the flush threshold, and the
per-worker in/out queues.  The terminator only receives notifications
and is not part of any claim; it is omitted. -/
structure FifoSched (Msg : Type) where
  messages : List (Option Msg)
  master_queue : List (List Nat)
  sub_queue_size : Nat
  in_queues : List (List Nat)
  out_queues : List (List Nat)
  deriving Repr, DecidableEq

/-- The `schedule_from_execution_thread(cpuid, vid, msg)` method (the
`schedule` twin with the worker index supplied instead of drawn from
`random::rand()`): combine into the message map; on first activation
push onto `in_queues[cpuid]` (after `ASSERT_LT(cpuid,
in_queues.size())`) and flush the sub-queue onto the master tail once it
exceeds `sub_queue_size`. -/
def schedule_from_execution_thread (combine : Msg → Msg → Msg)
    (s : FifoSched Msg) (cpuid vid : Nat) (msg : Msg) :
    Option (FifoSched Msg) :=
  let r := vmap_add combine s.messages vid msg
  if r.1 then
    if cpuid < s.in_queues.length then
      let q := s.in_queues.getD cpuid [] ++ [vid]
      if q.length > s.sub_queue_size then
        some { s with messages := r.2
                      master_queue := s.master_queue ++ [q]
                      in_queues := s.in_queues.set cpuid [] }
      else
        some { s with messages := r.2
                      in_queues := s.in_queues.set cpuid q }
    else none
  else some { s with messages := r.2 }

/-- Step 1 of an iteration of `get_next`: when the worker's out queue is
empty, swap the front sub-queue of the master (if any) into it. -/
def pull_master (master : List (List Nat)) (outq : List Nat) :
    List (List Nat) × List Nat :=
  if outq.isEmpty then
    match master with
    | mq :: mrest => (mrest, mq)
    | [] => ([], outq)
  else (master, outq)

/-- Step 2 of an iteration of `get_next`: when the out queue is still
empty and the worker's own in queue is not, swap them. -/
def pull_in (outq inq : List Nat) : List Nat × List Nat :=
  if outq.isEmpty && !inq.isEmpty then (inq, []) else (outq, inq)

/-- Total number of queued vertex ids in a master queue. -/
def mqWeight (m : List (List Nat)) : Nat := (m.map List.length).sum

/-- The `while(1)` loop of `get_next(cpuid)` over the components it
touches: the message map, the master queue, and this worker's out and in
queues.  Each iteration performs the two refill steps, then either pops
the front vertex (returning `NEW_TASK` when its message slot is live,
looping when it was already drained) or returns `EMPTY`. -/
def get_next_loop (messages : List (Option Msg))
    (master : List (List Nat)) (outq inq : List Nat) :
    SchedStatus Msg × List (Option Msg) × List (List Nat)
      × List Nat × List Nat :=
  let pm := pull_master master outq
  let pi2 := pull_in pm.2 inq
  match h : pi2.1 with
  | [] => (SchedStatus.empty, messages, pm.1, [], pi2.2)
  | vid :: rest =>
    match vmap_test_and_get messages vid with
    | (some msg, m2) => (SchedStatus.newTask vid msg, m2, pm.1, rest, pi2.2)
    | (none, m2) => get_next_loop m2 pm.1 rest pi2.2
termination_by mqWeight master + outq.length + inq.length
decreasing_by
  have h1 : ∀ (m : List (List Nat)) (o : List Nat),
      mqWeight (pull_master m o).1 + (pull_master m o).2.length
        = mqWeight m + o.length := by
    intro m o
    cases o <;> cases m <;> simp [pull_master, mqWeight] <;> omega
  have h2 : ∀ (o i : List Nat),
      (pull_in o i).1.length + (pull_in o i).2.length
        = o.length + i.length := by
    intro o i
    cases o <;> cases i <;> simp [pull_in]
  have h3 : (pull_in (pull_master master outq).2 inq).1 = vid :: rest := h
  have h4 := congrArg List.length h3
  simp only [List.length_cons] at h4
  have h5 := h1 master outq
  have h6 := h2 (pull_master master outq).2 inq
  omega

/-- The `get_next(cpuid)` method: runs the loop on the shared master
queue and this worker's own out/in queues, then writes the changed
components back; no other worker's in queue is read or written. -/
def get_next (s : FifoSched Msg) (cpuid : Nat) :
    SchedStatus Msg × FifoSched Msg :=
  let r := get_next_loop s.messages s.master_queue
    (s.out_queues.getD cpuid []) (s.in_queues.getD cpuid [])
  (r.1, { s with messages := r.2.1
                 master_queue := r.2.2.1
                 out_queues := s.out_queues.set cpuid r.2.2.2.1
                 in_queues := s.in_queues.set cpuid r.2.2.2.2 })

/-- The net record update of the adopt branch of the synchronization
primitives: ghost payload written, version raised, `snapshot_made`
cleared, `modified` untouched. -/
def adoptV {VD : Type} (d : VD) (ver : Nat) (r : VRecord VD) : VRecord VD :=
  ⟨d, r.modified, false, ver⟩

/-- The net edge-record update of the adopt branch. -/
def adoptE {ED : Type} (d : ED) (ver : Nat) (r : ERecord ED) : ERecord ED :=
  ⟨d, r.modified, false, ver⟩

/-!
Concrete instances used to settle the individual claims.
-/

/-- A one-vertex store whose record carries a nonzero version and set
flags (`data = 7`, `modified`, `snapshot_made`, `version = 5`). -/
def C2store : GraphLocalStore Nat Nat :=
  { vertices := [⟨7, true, true, 5⟩]
    edgedata := []
    edges := []
    in_edges := [[]]
    out_edges := [[]]
    vcolors := [0]
    nvertices := 1
    nedges := 0
    finalized := true
    changeid := 0 }

/-- The default-constructed store `load` is invoked on. -/
def C2empty : GraphLocalStore Nat Nat :=
  { vertices := []
    edgedata := []
    edges := []
    in_edges := []
    out_edges := []
    vcolors := []
    nvertices := 0
    nedges := 0
    finalized := true
    changeid := 0 }

/-- Result of saving `C2store` and loading the archive back, with the
freshly malloc-ed arena holding zero bytes. -/
def C2loaded : GraphLocalStore Nat Nat :=
  load_arc C2empty (save_arc C2store) (List.replicate 16 0) []

/-- The `add_edge` sequence of the `find` abort scenario: edges 2→1, 3→1
(giving vertex 1 two in-edges) and 0→2, 0→3, 0→4 (giving vertex 0 three
out-edges and no edge to vertex 1). -/
def C5edges : List (Nat × Nat × Nat) :=
  [(0, 2, 1), (1, 3, 1), (2, 0, 2), (3, 0, 3), (4, 0, 4)]

/-- The finalized store of the `find` abort scenario. -/
def C5store : GraphLocalStore Nat Nat :=
  GraphLocalStore.finalize
    ((build_store 5 5 C5edges).getD (GraphLocalStore.create_store 0 0 default default))

/-- The `add_edge` sequence of the coloring scenario: edges 0→1, 2→0,
3→1 on four vertices (no self-loops). -/
def C6edges : List (Nat × Nat × Nat) := [(0, 0, 1), (1, 2, 0), (2, 3, 1)]

/-- The store of the coloring scenario. -/
def C6store : GraphLocalStore Nat Nat :=
  (build_store 4 3 C6edges).getD (GraphLocalStore.create_store 0 0 default default)

/-- Local store of the two-vertex fragment used by the routing and
synchronization scenarios: local vertex 0 (payload 100, version 5) with
one out-edge to local vertex 1; the single edge carries payload 200 at
version 5. -/
def LSdemo : GraphLocalStore Nat Nat :=
  { vertices := [⟨100, false, false, 5⟩, ⟨0, false, false, 0⟩]
    edgedata := [⟨200, false, false, 5⟩]
    edges := [(0, 1)]
    in_edges := [[], [0]]
    out_edges := [[0], []]
    vcolors := [0, 0]
    nvertices := 2
    nedges := 1
    finalized := true
    changeid := 0 }

/-- Owner-side fragment for the synchronization scenarios: this machine
(proc 0) owns both vertices; global vertex 42 ↦ local 0, 43 ↦ local 1,
global edge 7 ↦ local 0. -/
def G1owner : DGraph Nat Nat :=
  { localstore := LSdemo
    global2localvid := [(42, 0), (43, 1)]
    local2globalvid := [42, 43]
    global2localeid := [(7, 0)]
    local2globaleid := [7]
    globalvid2owner := [(42, 0)]
    globaleid2owner := [(7, 0)]
    edge_canonical_numbering := false
    localvid2owner := [0, 0]
    procid := 0 }

/-- Ghost-side fragment for the routing scenario: vertex 42 is present at
local id 0 but owned by machine 1 (a ghost replica on proc 0). -/
def G3ghost : DGraph Nat Nat :=
  { G1owner with localvid2owner := [1, 0], globalvid2owner := [(42, 1)] }

/-- Same fragment with vertex 42 absent (only 43 is local). -/
def G3absent : DGraph Nat Nat :=
  { G3ghost with global2localvid := [(43, 1)] }

/-- Caller state of the asynchronous-synchronization scenario: the ghost
fragment with `pending_async_updates = 0`. -/
def C4caller : AsyncCallerState Nat Nat := ⟨G3ghost, 0⟩

/-- Canonical-numbering fragment: edge 0 is present in the fragment
(local id 0) but its target (local vertex 1) is owned by machine 1, not
by this machine (proc 0). -/
def G7canon : DGraph Nat Nat :=
  { G3ghost with
    edge_canonical_numbering := true
    global2localeid := [(0, 0)]
    local2globaleid := [0]
    localvid2owner := [0, 1] }

/-- Scheduler state in which worker 1's in queue holds the freshly
scheduled vertex 5 (live message slot) while worker 0's queues and the
master queue are empty. -/
def S10sched : FifoSched Nat :=
  { messages := [none, none, none, none, none, some 9]
    master_queue := []
    sub_queue_size := 100
    in_queues := [[], [5]]
    out_queues := [[], []] }

/-!
Theorems settling the claims.
-/

/-- C2. The archive round-trip `load(save(S))` preserves the structural
fields and the leading payload bytes but does NOT preserve the vertex
records: `save` writes only `sizeof(VertexData) * nvertices` bytes of an
arena laid out with stride `sizeof(vdata_store)`, so the version,
`modified` and `snapshot_made` of the stored records are lost (here: a
record saved with version 5 and both flags set loads back with version 0
and clear flags), refuting per-field equality `load(save(S)) = S`. -/
theorem C2_saveload_loses_versions :
    C2loaded.nvertices = C2store.nvertices ∧
    C2loaded.nedges = C2store.nedges ∧
    C2loaded.edges = C2store.edges ∧
    C2loaded.in_edges = C2store.in_edges ∧
    C2loaded.out_edges = C2store.out_edges ∧
    C2loaded.vcolors = C2store.vcolors ∧
    C2loaded.finalized = C2store.finalized ∧
    (C2loaded.vertices.getD 0 default).data
      = (C2store.vertices.getD 0 default).data ∧
    (C2store.vertices.getD 0 default).version = 5 ∧
    (C2store.vertices.getD 0 default).modified = true ∧
    (C2store.vertices.getD 0 default).snapshot_made = true ∧
    (C2loaded.vertices.getD 0 default).version = 0 ∧
    (C2loaded.vertices.getD 0 default).modified = false ∧
    (C2loaded.vertices.getD 0 default).snapshot_made = false ∧
    C2loaded.vertices ≠ C2store.vertices := by decide

/-- C4. No increment of `pending_async_updates` exists anywhere in
`distributed_graph.hpp`: firing an asynchronous vertex synchronization
for ghost vertex 42 leaves the counter at 0 (first conjunct returns the
caller state unchanged), and the reply handler then decrements the
64-bit counter from 0 to `2^64 - 1`, so the guard of
`wait_for_all_async_syncs()` keeps spinning instead of observing 0. -/
theorem C4_counter_never_incremented :
    synchronize_vertex_async_fire C4caller 42
      = some (C4caller, some ⟨1, 0, 42, 5, ⟨false, (0, 0)⟩⟩) ∧
    C4caller.pending_async_updates = 0 ∧
    (reply_vertex_data_and_version C4caller 42 ⟨false, (0, 0)⟩).map
      (fun s => s.pending_async_updates) = some (2 ^ 64 - 1) ∧
    wait_guard (2 ^ 64 - 1) = true := by decide

/-- C5. On the finalized store built by `create_store`/`add_edge` from
`C5edges`, looking up the absent edge 0→1 drives `binary_search` into
`assert(mid > 0)` (searching the two-element `in_edges[1]` for a source
below its minimum) and the process aborts instead of returning
`(false, _)`; the same lookup on the non-finalized store returns
`(false, (uint32)(-1))`, and lookups of present edges succeed. -/
theorem C5_find_aborts_in_binary_search :
    (build_store 5 5 C5edges).isSome = true ∧
    C5store.finalized = true ∧
    (0, 1) ∉ C5store.edges ∧
    C5store.find 0 1 = none ∧
    GraphLocalStore.find { C5store with finalized := false } 0 1
      = some (false, U32NEG1) ∧
    C5store.find 2 1 = some (true, 0) := by decide

/-- C6. On the store built by `create_store`/`add_edge` from `C6edges`
(edges 0→1, 2→0, 3→1; no self-loops), `compute_coloring` colors both
endpoints of edge 0→1 with color 1 — the greedy pass only avoids
in-neighbor colors, and vertex 0 is recolored after its out-neighbor 1 —
so `valid_coloring()` returns false immediately afterwards. -/
theorem C6_compute_coloring_invalid :
    (build_store 4 3 C6edges).isSome = true ∧
    (C6store.compute_coloring).map (fun p => p.2.vcolors)
      = some [1, 1, 0, 0] ∧
    ((C6store.compute_coloring).bind fun p => p.2.valid_coloring)
      = some false := by decide

/-- C9. `messages::sum` adds priorities and its `+=` is associative over
`sum` values; `messages::max` takes the larger priority, BUT its `+=`
accepts a right operand of type `messages::sum` (see the type of
`maxIadd`), not `messages::max` — combining two `max` messages is
ill-typed in the source, so `+=` is not a combiner over `max` values of
the same type. -/
theorem C9_combiner_semantics :
    (∀ a b : SumMsg, sumIadd a b = ⟨a.prio + b.prio⟩) ∧
    (∀ a b c : SumMsg, sumIadd (sumIadd a b) c = sumIadd a (sumIadd b c)) ∧
    (∀ (m : MaxMsg) (o : SumMsg), maxIadd m o = ⟨max m.prio o.prio⟩) ∧
    maxIadd ⟨1⟩ ⟨2⟩ = ⟨2⟩ ∧ maxIadd ⟨3⟩ ⟨2⟩ = ⟨3⟩ := by
  refine ⟨fun a b => rfl, fun a b c => ?_, fun m o => rfl, by decide, by decide⟩
  simp [sumIadd, add_assoc]

/-- C3 (counterexample). Vertex 42 is present on proc 0 only as a ghost —
its recorded owner is machine 1 — yet `get_vertex_data(42)` serves the
local replica's payload 100 from the local store instead of issuing an
RPC to the owner, refuting the claimed owner-routing of
`get_vertex_data` for ghosts. -/
theorem C3_ghost_served_locally :
    List.lookup 42 G3ghost.global2localvid = some 0 ∧
    G3ghost.localvid2owner.getD 0 0 = 1 ∧
    G3ghost.procid = 0 ∧
    DGraph.get_vertex_data G3ghost 42 = some (Routed.loc 100) := by decide

/-- C7 (counterexample). Under edge canonical numbering, edge 0 IS present
in the local fragment, but because its target vertex is owned by machine
1 the write `set_edge_data_from_eid` falls through to the remote path
and trips `ASSERT_MSG(edge_canonical_numbering == false, ...)` — a
present edge for which the operation is nonetheless fatal, refuting the
claim that the listed operations succeed on all locally present
edges. -/
theorem C7_present_edge_write_fatal :
    G7canon.edge_canonical_numbering = true ∧
    (List.lookup 0 G7canon.global2localeid).isSome = true ∧
    DGraph.set_edge_data_from_eid G7canon 0 99 false = none := by decide

/-- C8. `add_edge(eid, source, target)` aborts exactly when the edge is a
self-loop, an endpoint is not below `nvertices`, or `eid` is not below
`nedges`; on every other call it records the edge pair at index `eid`,
appends `eid` to `in_edges[target]` and `out_edges[source]`, and clears
the `finalized` flag. -/
theorem C8_add_edge_contract {VD ED : Type} (g : GraphLocalStore VD ED)
    (eid s t : Nat) :
    (g.add_edge eid s t = none ↔
      s = t ∨ g.nvertices ≤ s ∨ g.nvertices ≤ t ∨ g.nedges ≤ eid) ∧
    (s ≠ t → s < g.nvertices → t < g.nvertices → eid < g.nedges →
      g.add_edge eid s t = some { g with
        edges := g.edges.set eid (s, t)
        in_edges := updNth g.in_edges t (fun q => q ++ [eid])
        out_edges := updNth g.out_edges s (fun q => q ++ [eid])
        finalized := false }) := by
  unfold GraphLocalStore.add_edge
  constructor
  · split_ifs with h1 h2 h3 <;> simp <;> omega
  · intro hst hs ht he
    split_ifs with h1 h2 h3 <;> first | rfl | omega

/-- Witness for C8: on a fresh two-vertex one-edge store, `add_edge 0 0 1`
succeeds with the expected state, and the self-loop `add_edge 0 1 1` is
fatal. -/
theorem C8_add_edge_contract_witness :
    (GraphLocalStore.create_store 2 1 (default : VRecord Nat)
        (default : ERecord Nat)).add_edge 0 0 1
      = some { GraphLocalStore.create_store 2 1 (default : VRecord Nat)
                 (default : ERecord Nat) with
               edges := (GraphLocalStore.create_store 2 1
                 (default : VRecord Nat) (default : ERecord Nat)).edges.set 0 (0, 1)
               in_edges := updNth (GraphLocalStore.create_store 2 1
                 (default : VRecord Nat) (default : ERecord Nat)).in_edges 1
                 (fun q => q ++ [0])
               out_edges := updNth (GraphLocalStore.create_store 2 1
                 (default : VRecord Nat) (default : ERecord Nat)).out_edges 0
                 (fun q => q ++ [0])
               finalized := false } ∧
    (GraphLocalStore.create_store 2 1 (default : VRecord Nat)
        (default : ERecord Nat)).add_edge 0 1 1 = none :=
  ⟨(C8_add_edge_contract (GraphLocalStore.create_store 2 1 default default)
      0 0 1).2 (by decide) (by decide) (by decide) (by decide),
   (C8_add_edge_contract (GraphLocalStore.create_store 2 1 default default)
      0 1 1).1.mpr (Or.inl rfl)⟩

/-- C3 (amended). `get_vertex_data(vid)` serves the local store's replica
whenever the vertex is anywhere in the local fragment — ghost or
interior — and resolves the owner through the directory and issues
exactly one RPC only when the vertex is absent from the fragment;
`num_in_neighbors`, by contrast, serves locally only when the replica is
authoritative (owner = self) and otherwise issues one RPC to the
directory-resolved owner. -/
theorem C3_read_routing {VD ED : Type} [Inhabited VD] :
    (∀ (g : DGraph VD ED) (vid lv : Nat),
      List.lookup vid g.global2localvid = some lv →
      lv < g.localstore.nvertices →
      DGraph.get_vertex_data g vid
        = some (Routed.loc ((g.localstore.vertices.getD lv default).data))) ∧
    (∀ (g : DGraph VD ED) (vid owner : Nat),
      List.lookup vid g.global2localvid = none →
      List.lookup vid g.globalvid2owner = some owner →
      DGraph.get_vertex_data g vid = some (Routed.rpc owner)) ∧
    (∀ (g : DGraph VD ED) (vid lv : Nat),
      List.lookup vid g.global2localvid = some lv →
      g.localvid2owner.getD lv 0 = g.procid →
      lv < g.localstore.nvertices →
      DGraph.num_in_neighbors g vid
        = some (Routed.loc (g.localstore.in_edges.getD lv []).length)) ∧
    (∀ (g : DGraph VD ED) (vid lv owner : Nat),
      List.lookup vid g.global2localvid = some lv →
      g.localvid2owner.getD lv 0 ≠ g.procid →
      List.lookup vid g.globalvid2owner = some owner →
      DGraph.num_in_neighbors g vid = some (Routed.rpc owner)) ∧
    (∀ (g : DGraph VD ED) (vid owner : Nat),
      List.lookup vid g.global2localvid = none →
      List.lookup vid g.globalvid2owner = some owner →
      DGraph.num_in_neighbors g vid = some (Routed.rpc owner)) := by
  refine ⟨?_, ?_, ?_, ?_, ?_⟩
  · intro g vid lv h1 h2
    simp [DGraph.get_vertex_data, h1, GraphLocalStore.vertex_data, h2]
  · intro g vid owner h1 h2
    simp [DGraph.get_vertex_data, h1, h2]
  · intro g vid lv h1 h2 h3
    simp only [List.getD, List.get?_eq_getElem?] at h2
    simp [DGraph.num_in_neighbors, h1, h2, h3]
  · intro g vid lv owner h1 h2 h3
    simp only [List.getD, List.get?_eq_getElem?] at h2
    simp [DGraph.num_in_neighbors, h1, h2, h3]
  · intro g vid owner h1 h2
    simp [DGraph.num_in_neighbors, h1, h2]

/-- Witness for C3: on the concrete ghost fragment, the present ghost
vertex 42 is served locally with payload 100, the absent vertex 42 is
routed as one RPC to owner 1, and `num_in_neighbors` of the ghost is
routed to owner 1. -/
theorem C3_read_routing_witness :
    DGraph.get_vertex_data G3ghost 42 = some (Routed.loc 100) ∧
    DGraph.get_vertex_data G3absent 42 = some (Routed.rpc 1) ∧
    DGraph.num_in_neighbors G3ghost 42 = some (Routed.rpc 1) :=
  ⟨(@C3_read_routing Nat Nat _).1 G3ghost 42 0 (by decide) (by decide),
   (@C3_read_routing Nat Nat _).2.1 G3absent 42 1 (by decide) (by decide),
   (@C3_read_routing Nat Nat _).2.2.2.1 G3ghost 42 0 1 (by decide) (by decide)
     (by decide)⟩

/-- C7 (amended). Under edge canonical numbering, every edge-by-EID
operation on an edge absent from the local fragment (`source`, `target`,
`rev_edge_id`, `get_edge_data_from_eid`, and `set_edge_data_from_eid`)
aborts with the canonical-numbering programming error instead of issuing
the remote RPC; `source`, `target`, `rev_edge_id` and
`get_edge_data_from_eid` on locally present edges still succeed, while
`set_edge_data_from_eid` succeeds locally only when the present edge's
target vertex is owned by the calling machine — with a remotely-owned
target it is likewise fatal under canonical numbering. -/
theorem C7_canonical_numbering_gates {VD ED : Type} [Inhabited ED] :
    (∀ (g : DGraph VD ED) (eid : Nat),
      g.edge_canonical_numbering = true →
      List.lookup eid g.global2localeid = none →
      DGraph.sourceD g eid = none ∧ DGraph.targetD g eid = none ∧
      DGraph.rev_edge_idD g eid = none ∧
      DGraph.get_edge_data_from_eid g eid = none ∧
      ∀ (d : ED) (a : Bool), DGraph.set_edge_data_from_eid g eid d a = none) ∧
    (∀ (g : DGraph VD ED) (eid l s : Nat),
      List.lookup eid g.global2localeid = some l →
      g.localstore.sourceV l = some s →
      DGraph.sourceD g eid
        = some (Routed.loc (g.local2globalvid.getD s 0))) ∧
    (∀ (g : DGraph VD ED) (eid l t : Nat),
      List.lookup eid g.global2localeid = some l →
      g.localstore.targetV l = some t →
      DGraph.targetD g eid
        = some (Routed.loc (g.local2globalvid.getD t 0))) ∧
    (∀ (g : DGraph VD ED) (eid l r : Nat),
      List.lookup eid g.global2localeid = some l →
      g.localstore.rev_edge_id l = some r →
      DGraph.rev_edge_idD g eid
        = some (Routed.loc (g.local2globaleid.getD r 0))) ∧
    (∀ (g : DGraph VD ED) (eid l : Nat) (d : ED),
      List.lookup eid g.global2localeid = some l →
      g.localstore.edge_data l = some d →
      DGraph.get_edge_data_from_eid g eid = some (Routed.loc d)) ∧
    (∀ (g : DGraph VD ED) (eid l tgt : Nat) (d : ED) (a : Bool)
        (ls2 : GraphLocalStore VD ED),
      List.lookup eid g.global2localeid = some l →
      g.localstore.targetV l = some tgt →
      g.localvid2owner.getD tgt 0 = g.procid →
      g.localstore.write_edge_data l d = some ls2 →
      DGraph.set_edge_data_from_eid g eid d a
        = some (Routed.loc { g with localstore := ls2 })) ∧
    (∀ (g : DGraph VD ED) (eid l tgt : Nat) (d : ED) (a : Bool),
      g.edge_canonical_numbering = true →
      List.lookup eid g.global2localeid = some l →
      g.localstore.targetV l = some tgt →
      g.localvid2owner.getD tgt 0 ≠ g.procid →
      DGraph.set_edge_data_from_eid g eid d a = none) := by
  refine ⟨?_, ?_, ?_, ?_, ?_, ?_, ?_⟩
  · intro g eid hc h1
    refine ⟨?_, ?_, ?_, ?_, fun d a => ?_⟩ <;>
      simp [DGraph.sourceD, DGraph.targetD, DGraph.rev_edge_idD,
        DGraph.get_edge_data_from_eid, DGraph.set_edge_data_from_eid,
        DGraph.eid_remote, hc, h1]
  · intro g eid l s h1 h2
    simp [DGraph.sourceD, h1, h2]
  · intro g eid l t h1 h2
    simp [DGraph.targetD, h1, h2]
  · intro g eid l r h1 h2
    simp [DGraph.rev_edge_idD, h1, h2]
  · intro g eid l d h1 h2
    simp [DGraph.get_edge_data_from_eid, h1, h2]
  · intro g eid l tgt d a ls2 h1 h2 h3 h4
    simp only [List.getD, List.get?_eq_getElem?] at h3
    simp [DGraph.set_edge_data_from_eid, h1, h2, h3, h4]
  · intro g eid l tgt d a hc h1 h2 h3
    simp only [List.getD, List.get?_eq_getElem?] at h3
    simp [DGraph.set_edge_data_from_eid, DGraph.eid_remote, hc, h1, h2, h3]

/-- Witness for C7: on the concrete canonical-numbering fragment, the
absent edge 5 is fatal for all five operations, the present edge 0 is
served locally by `source`/`target`/`get_edge_data_from_eid`, and the
present edge 0 (remotely-owned target) is fatal for
`set_edge_data_from_eid`. -/
theorem C7_canonical_numbering_gates_witness :
    DGraph.sourceD G7canon 5 = none ∧
    DGraph.set_edge_data_from_eid G7canon 5 99 true = none ∧
    DGraph.sourceD G7canon 0 = some (Routed.loc 42) ∧
    DGraph.targetD G7canon 0 = some (Routed.loc 43) ∧
    DGraph.get_edge_data_from_eid G7canon 0 = some (Routed.loc 200) ∧
    DGraph.set_edge_data_from_eid G7canon 0 99 false = none :=
  ⟨((@C7_canonical_numbering_gates Nat Nat _).1 G7canon 5 (by decide)
      (by decide)).1,
   ((@C7_canonical_numbering_gates Nat Nat _).1 G7canon 5 (by decide)
      (by decide)).2.2.2.2 99 true,
   (@C7_canonical_numbering_gates Nat Nat _).2.1 G7canon 0 0 0 (by decide)
      (by decide),
   (@C7_canonical_numbering_gates Nat Nat _).2.2.1 G7canon 0 0 1 (by decide)
      (by decide),
   (@C7_canonical_numbering_gates Nat Nat _).2.2.2.2.1 G7canon 0 0 200
      (by decide) (by decide),
   (@C7_canonical_numbering_gates Nat Nat _).2.2.2.2.2.2 G7canon 0 0 1 99
      false (by decide) (by decide) (by decide) (by decide)⟩

theorem vertex_version_some_lt {VD ED : Type} [Inhabited VD]
    {g : GraphLocalStore VD ED} {v over : Nat}
    (h : g.vertex_version v = some over) : v < g.nvertices := by
  by_contra hge
  simp [GraphLocalStore.vertex_version, hge] at h

theorem edge_version_some_lt {VD ED : Type} [Inhabited ED]
    {g : GraphLocalStore VD ED} {e over : Nat}
    (h : g.edge_version e = some over) : e < g.nedges := by
  by_contra hge
  simp [GraphLocalStore.edge_version, hge] at h

theorem updNth_updNth {α : Type} [Inhabited α] (l : List α) (i : Nat)
    (f h : α → α) (hi : i < l.length) :
    updNth (updNth l i f) i h = updNth l i (fun a => h (f a)) := by
  unfold updNth
  rw [List.set_set]
  congr 1
  rw [List.getD_eq_getElem?_getD, List.getElem?_set_self hi, Option.getD_some,
    List.getD_eq_getElem?_getD]

/-- C1. The owner-side version-gated reconciliation rule, for all three
primitives.  For `get_vertex_if_version_less_than` (vertex `vid` at
local id `lv`, owner version `over`, ghost version `gver`): strictly
greater returns `has_data = true` with the owner's `(data, version)` and
an unchanged fragment; strictly less requires `ghost_store.hasdata`
(fatal otherwise) and adopts the ghost's payload while raising the
stored version to `gver`, returning no data; equal returns no data and
changes nothing.  The same rule holds for
`get_edge_if_version_less_than` (by global edge id) and
`get_edge_if_version_less_than2` (by vertex pair, after `find`). -/
theorem C1_version_gated_reconciliation {VD ED : Type} [Inhabited VD]
    [Inhabited ED] :
    (∀ (g : DGraph VD ED) (vid lv gver over : Nat) (od : VD)
        (vdata : DGraph.CondStore VD),
      List.lookup vid g.global2localvid = some lv →
      g.localstore.vertex_version lv = some over →
      g.localstore.vertex_data lv = some od →
      gver < over →
      DGraph.get_vertex_if_version_less_than g vid gver vdata
        = some (⟨true, (od, over)⟩, g)) ∧
    (∀ (g : DGraph VD ED) (vid lv gver over : Nat)
        (vdata : DGraph.CondStore VD),
      List.lookup vid g.global2localvid = some lv →
      g.localstore.vertex_version lv = some over →
      over < gver → vdata.hasdata = true →
      lv < g.localstore.vertices.length → gver < 2 ^ 62 →
      DGraph.get_vertex_if_version_less_than g vid gver vdata
        = some (⟨false, (default, 0)⟩, { g with localstore :=
            { g.localstore with
              vertices := updNth g.localstore.vertices lv (adoptV vdata.data.1 gver) } })) ∧
    (∀ (g : DGraph VD ED) (vid lv gver over : Nat)
        (vdata : DGraph.CondStore VD),
      List.lookup vid g.global2localvid = some lv →
      g.localstore.vertex_version lv = some over →
      over < gver → vdata.hasdata = false →
      DGraph.get_vertex_if_version_less_than g vid gver vdata = none) ∧
    (∀ (g : DGraph VD ED) (vid lv over : Nat)
        (vdata : DGraph.CondStore VD),
      List.lookup vid g.global2localvid = some lv →
      g.localstore.vertex_version lv = some over →
      DGraph.get_vertex_if_version_less_than g vid over vdata
        = some (⟨false, (default, 0)⟩, g)) ∧
    (∀ (g : DGraph VD ED) (eid le gver over : Nat) (od : ED)
        (edata : DGraph.CondStore ED),
      List.lookup eid g.global2localeid = some le →
      g.localstore.edge_version le = some over →
      g.localstore.edge_data le = some od →
      gver < over →
      DGraph.get_edge_if_version_less_than g eid gver edata
        = some (⟨true, (od, over)⟩, g)) ∧
    (∀ (g : DGraph VD ED) (eid le gver over : Nat)
        (edata : DGraph.CondStore ED),
      List.lookup eid g.global2localeid = some le →
      g.localstore.edge_version le = some over →
      over < gver → edata.hasdata = true →
      le < g.localstore.edgedata.length → gver < 2 ^ 62 →
      DGraph.get_edge_if_version_less_than g eid gver edata
        = some (⟨false, (default, 0)⟩, { g with localstore :=
            { g.localstore with
              edgedata := updNth g.localstore.edgedata le (adoptE edata.data.1 gver) } })) ∧
    (∀ (g : DGraph VD ED) (eid le gver over : Nat)
        (edata : DGraph.CondStore ED),
      List.lookup eid g.global2localeid = some le →
      g.localstore.edge_version le = some over →
      over < gver → edata.hasdata = false →
      DGraph.get_edge_if_version_less_than g eid gver edata = none) ∧
    (∀ (g : DGraph VD ED) (eid le over : Nat)
        (edata : DGraph.CondStore ED),
      List.lookup eid g.global2localeid = some le →
      g.localstore.edge_version le = some over →
      DGraph.get_edge_if_version_less_than g eid over edata
        = some (⟨false, (default, 0)⟩, g)) ∧
    (∀ (g : DGraph VD ED) (src tgt lsrc ltgt le gver over : Nat) (od : ED)
        (edata : DGraph.CondStore ED),
      List.lookup src g.global2localvid = some lsrc →
      List.lookup tgt g.global2localvid = some ltgt →
      g.localstore.find lsrc ltgt = some (true, le) →
      g.localstore.edge_version le = some over →
      g.localstore.edge_data le = some od →
      gver < over →
      DGraph.get_edge_if_version_less_than2 g src tgt gver edata
        = some (⟨true, (od, over)⟩, g)) ∧
    (∀ (g : DGraph VD ED) (src tgt lsrc ltgt le gver over : Nat)
        (edata : DGraph.CondStore ED),
      List.lookup src g.global2localvid = some lsrc →
      List.lookup tgt g.global2localvid = some ltgt →
      g.localstore.find lsrc ltgt = some (true, le) →
      g.localstore.edge_version le = some over →
      over < gver → edata.hasdata = true →
      le < g.localstore.edgedata.length → gver < 2 ^ 62 →
      DGraph.get_edge_if_version_less_than2 g src tgt gver edata
        = some (⟨false, (default, 0)⟩, { g with localstore :=
            { g.localstore with
              edgedata := updNth g.localstore.edgedata le (adoptE edata.data.1 gver) } })) ∧
    (∀ (g : DGraph VD ED) (src tgt lsrc ltgt le gver over : Nat)
        (edata : DGraph.CondStore ED),
      List.lookup src g.global2localvid = some lsrc →
      List.lookup tgt g.global2localvid = some ltgt →
      g.localstore.find lsrc ltgt = some (true, le) →
      g.localstore.edge_version le = some over →
      over < gver → edata.hasdata = false →
      DGraph.get_edge_if_version_less_than2 g src tgt gver edata = none) ∧
    (∀ (g : DGraph VD ED) (src tgt lsrc ltgt le over : Nat)
        (edata : DGraph.CondStore ED),
      List.lookup src g.global2localvid = some lsrc →
      List.lookup tgt g.global2localvid = some ltgt →
      g.localstore.find lsrc ltgt = some (true, le) →
      g.localstore.edge_version le = some over →
      DGraph.get_edge_if_version_less_than2 g src tgt over edata
        = some (⟨false, (default, 0)⟩, g)) := by
  refine ⟨?_, ?_, ?_, ?_, ?_, ?_, ?_, ?_, ?_, ?_, ?_, ?_⟩
  · intro g vid lv gver over od vdata h1 h2 h3 h4
    simp [DGraph.get_vertex_if_version_less_than, h1, h2, h3, h4]
  · intro g vid lv gver over vdata h1 h2 h3 hhd hlen hg
    have hnv : lv < g.localstore.nvertices := vertex_version_some_lt h2
    have h3' : ¬ (gver < over) := by omega
    simp [DGraph.get_vertex_if_version_less_than, h1, h2, h3, h3', hhd,
      GraphLocalStore.write_vertex_data, GraphLocalStore.set_vertex_version,
      hnv, updNth_updNth _ _ _ _ hlen, GraphLocalStore.bumpV, ver62]
    congr 1
    funext a
    simp [adoptV]
    omega
  · intro g vid lv gver over vdata h1 h2 h3 hhd
    have h3' : ¬ (gver < over) := by omega
    simp [DGraph.get_vertex_if_version_less_than, h1, h2, h3, h3', hhd]
  · intro g vid lv over vdata h1 h2
    simp [DGraph.get_vertex_if_version_less_than, h1, h2]
  · intro g eid le gver over od edata h1 h2 h3 h4
    simp [DGraph.get_edge_if_version_less_than, h1, h2, h3, h4]
  · intro g eid le gver over edata h1 h2 h3 hhd hlen hg
    have hne : le < g.localstore.nedges := edge_version_some_lt h2
    have h3' : ¬ (gver < over) := by omega
    simp [DGraph.get_edge_if_version_less_than, h1, h2, h3, h3', hhd,
      GraphLocalStore.write_edge_data, GraphLocalStore.set_edge_version,
      hne, updNth_updNth _ _ _ _ hlen, GraphLocalStore.bumpE, ver62]
    congr 1
    funext a
    simp [adoptE]
    omega
  · intro g eid le gver over edata h1 h2 h3 hhd
    have h3' : ¬ (gver < over) := by omega
    simp [DGraph.get_edge_if_version_less_than, h1, h2, h3, h3', hhd]
  · intro g eid le over edata h1 h2
    simp [DGraph.get_edge_if_version_less_than, h1, h2]
  · intro g src tgt lsrc ltgt le gver over od edata h1 h2 hf h3 h4 h5
    simp [DGraph.get_edge_if_version_less_than2, h1, h2, hf, h3, h4, h5]
  · intro g src tgt lsrc ltgt le gver over edata h1 h2 hf h3 h4 hhd hlen hg
    have hne : le < g.localstore.nedges := edge_version_some_lt h3
    have h4' : ¬ (gver < over) := by omega
    simp [DGraph.get_edge_if_version_less_than2, h1, h2, hf, h3, h4, h4',
      hhd,
      GraphLocalStore.write_edge_data, GraphLocalStore.set_edge_version,
      hne, updNth_updNth _ _ _ _ hlen, GraphLocalStore.bumpE, ver62]
    congr 1
    funext a
    simp [adoptE]
    omega
  · intro g src tgt lsrc ltgt le gver over edata h1 h2 hf h3 h4 hhd
    have h4' : ¬ (gver < over) := by omega
    simp [DGraph.get_edge_if_version_less_than2, h1, h2, hf, h3, h4, h4',
      hhd]
  · intro g src tgt lsrc ltgt le over edata h1 h2 hf h3
    simp [DGraph.get_edge_if_version_less_than2, h1, h2, hf, h3]

/-- Witness for C1: on the concrete owner fragment (vertex 42 at version
5 with payload 100, edge 7 at version 5 with payload 200), all three
comparison outcomes of the vertex primitive and the greater-case of both
edge primitives evaluate as the rule states. -/
theorem C1_version_gated_reconciliation_witness :
    DGraph.get_vertex_if_version_less_than G1owner 42 3 ⟨false, (0, 0)⟩
      = some (⟨true, (100, 5)⟩, G1owner) ∧
    DGraph.get_vertex_if_version_less_than G1owner 42 9 ⟨true, (77, 0)⟩
      = some (⟨false, (0, 0)⟩, { G1owner with localstore :=
          { G1owner.localstore with
            vertices := updNth G1owner.localstore.vertices 0 (adoptV 77 9) } }) ∧
    DGraph.get_vertex_if_version_less_than G1owner 42 9 ⟨false, (77, 0)⟩
      = none ∧
    DGraph.get_vertex_if_version_less_than G1owner 42 5 ⟨true, (77, 0)⟩
      = some (⟨false, (0, 0)⟩, G1owner) ∧
    DGraph.get_edge_if_version_less_than G1owner 7 3 ⟨false, (0, 0)⟩
      = some (⟨true, (200, 5)⟩, G1owner) ∧
    DGraph.get_edge_if_version_less_than2 G1owner 42 43 3 ⟨false, (0, 0)⟩
      = some (⟨true, (200, 5)⟩, G1owner) :=
  ⟨(@C1_version_gated_reconciliation Nat Nat _ _).1 G1owner 42 0 3 5 100
      ⟨false, (0, 0)⟩ (by decide) (by decide) (by decide) (by decide),
   (@C1_version_gated_reconciliation Nat Nat _ _).2.1 G1owner 42 0 9 5
      ⟨true, (77, 0)⟩ (by decide) (by decide) (by decide) (by decide)
      (by decide) (by decide),
   (@C1_version_gated_reconciliation Nat Nat _ _).2.2.1 G1owner 42 0 9 5
      ⟨false, (77, 0)⟩ (by decide) (by decide) (by decide) (by decide),
   (@C1_version_gated_reconciliation Nat Nat _ _).2.2.2.1 G1owner 42 0 5
      ⟨true, (77, 0)⟩ (by decide) (by decide),
   (@C1_version_gated_reconciliation Nat Nat _ _).2.2.2.2.1 G1owner 7 0 3 5
      200 ⟨false, (0, 0)⟩ (by decide) (by decide) (by decide) (by decide),
   (@C1_version_gated_reconciliation Nat Nat _ _).2.2.2.2.2.2.2.2.1 G1owner
      42 43 0 1 0 3 5 200 ⟨false, (0, 0)⟩ (by decide) (by decide)
      (by decide) (by decide) (by decide) (by decide)⟩

theorem vmap_test_and_get_stale {Msg : Type} (m : List (Option Msg))
    (vid : Nat) (h : m.getD vid none = none) :
    vmap_test_and_get m vid = (none, m) := by
  unfold vmap_test_and_get
  rw [h]

theorem mem_pull_master {x : Nat} (m : List (List Nat)) (o : List Nat) :
    x ∈ (pull_master m o).1.flatten ∨ x ∈ (pull_master m o).2 →
    x ∈ m.flatten ∨ x ∈ o := by
  cases o <;> cases m <;> simp [pull_master] <;> tauto

theorem mem_pull_in {x : Nat} (o i : List Nat) :
    x ∈ (pull_in o i).1 ∨ x ∈ (pull_in o i).2 → x ∈ o ∨ x ∈ i := by
  cases o <;> cases i <;> simp [pull_in] <;> tauto

theorem stale_transport {Msg : Type} (messages : List (Option Msg))
    (master : List (List Nat)) (outq inq : List Nat)
    (h : ∀ vid, vid ∈ master.flatten ∨ vid ∈ outq ∨ vid ∈ inq →
        messages.getD vid none = none) :
    ∀ vid, vid ∈ (pull_master master outq).1.flatten ∨
        vid ∈ (pull_in (pull_master master outq).2 inq).1 ∨
        vid ∈ (pull_in (pull_master master outq).2 inq).2 →
      messages.getD vid none = none := by
  intro vid hv
  apply h
  rcases hv with hv | hv | hv
  · rcases mem_pull_master master outq (Or.inl hv) with hm | hm
    · exact Or.inl hm
    · exact Or.inr (Or.inl hm)
  · rcases mem_pull_in (pull_master master outq).2 inq (Or.inl hv) with hm | hm
    · rcases mem_pull_master master outq (Or.inr hm) with hm2 | hm2
      · exact Or.inl hm2
      · exact Or.inr (Or.inl hm2)
    · exact Or.inr (Or.inr hm)
  · rcases mem_pull_in (pull_master master outq).2 inq (Or.inr hv) with hm | hm
    · rcases mem_pull_master master outq (Or.inr hm) with hm2 | hm2
      · exact Or.inl hm2
      · exact Or.inr (Or.inl hm2)
    · exact Or.inr (Or.inr hm)

theorem get_next_loop_stale {Msg : Type} :
    ∀ (messages : List (Option Msg)) (master : List (List Nat))
      (outq inq : List Nat),
    (∀ vid, vid ∈ master.flatten ∨ vid ∈ outq ∨ vid ∈ inq →
        messages.getD vid none = none) →
    (get_next_loop messages master outq inq).1 = SchedStatus.empty := by
  intro messages master outq inq
  induction messages, master, outq, inq using get_next_loop.induct with
  | case1 messages master outq inq pm pi2 hnil =>
    intro _
    rw [get_next_loop.eq_def]
    simp only []
    split
    · rfl
    next vid rest heq => rw [hnil] at heq; exact absurd heq (by simp)
  | case2 messages master outq inq pm pi2 vid rest hcons msg m2 hget =>
    intro h
    have hmem : vid ∈ (pull_in (pull_master master outq).2 inq).1 := by
      rw [hcons]; exact List.mem_cons_self vid rest
    have hst := stale_transport messages master outq inq h vid
      (Or.inr (Or.inl hmem))
    rw [vmap_test_and_get_stale messages vid hst] at hget
    exact absurd hget (by simp)
  | case3 messages master outq inq pm pi2 vid rest hcons m2 hget ih =>
    intro h
    have hmem : vid ∈ (pull_in (pull_master master outq).2 inq).1 := by
      rw [hcons]; exact List.mem_cons_self vid rest
    have hst := stale_transport messages master outq inq h vid
      (Or.inr (Or.inl hmem))
    have hm2 : m2 = messages := by
      rw [vmap_test_and_get_stale messages vid hst] at hget
      injection hget with hfst hsnd
      exact hsnd.symm
    rw [hm2] at ih
    have hcons2 : (pull_in (pull_master master outq).2 inq).1 = vid :: rest :=
      hcons
    rw [get_next_loop.eq_def]
    simp only []
    split
    next heq =>
      rw [hcons2] at heq
    next vid2 rest2 heq =>
      have h2 := hcons2.symm.trans heq
      injection h2 with a b
      rw [← a, ← b, vmap_test_and_get_stale messages vid hst]
      refine ih ?_
      intro v hv
      apply stale_transport messages master outq inq h v
      rcases hv with hv | hv | hv
      · exact Or.inl hv
      · refine Or.inr (Or.inl ?_)
        rw [hcons2]
        exact List.mem_cons_of_mem vid hv
      · exact Or.inr (Or.inr hv)
/-- C10. `get_next(cpuid)` inspects only the shared master queue and this
worker's own out and in queues: whenever every vertex id in those three
places has an already-drained message slot (or the queues are empty),
`get_next` returns `EMPTY` — regardless of what any other worker's in
queue holds — and the other workers' in and out queues are untouched. -/
theorem C10_get_next_only_own_queues {Msg : Type} (s : FifoSched Msg)
    (cpuid : Nat)
    (h : ∀ vid, vid ∈ s.master_queue.flatten ∨
        vid ∈ s.out_queues.getD cpuid [] ∨ vid ∈ s.in_queues.getD cpuid [] →
        s.messages.getD vid none = none) :
    (get_next s cpuid).1 = SchedStatus.empty ∧
    (∀ j, j ≠ cpuid →
      (get_next s cpuid).2.in_queues.getD j [] = s.in_queues.getD j []) ∧
    (∀ j, j ≠ cpuid →
      (get_next s cpuid).2.out_queues.getD j [] = s.out_queues.getD j []) := by
  refine ⟨?_, ?_, ?_⟩
  · exact get_next_loop_stale s.messages s.master_queue _ _ h
  · intro j hj
    simp only [get_next, List.getD_eq_getElem?_getD]
    rw [List.getElem?_set_ne (Ne.symm hj)]
  · intro j hj
    simp only [get_next, List.getD_eq_getElem?_getD]
    rw [List.getElem?_set_ne (Ne.symm hj)]

/-- Witness for C10: worker 1's in queue holds the freshly scheduled
vertex 5 with a live message, yet `get_next` on worker 0 — whose queues
and the master queue are empty — returns `EMPTY` and leaves worker 1's
queue in place. -/
theorem C10_get_next_only_own_queues_witness :
    (get_next S10sched 0).1 = SchedStatus.empty ∧
    (get_next S10sched 0).2.in_queues.getD 1 [] = [5] := by
  have hc := C10_get_next_only_own_queues S10sched 0 (by
    intro vid hv
    simp [S10sched] at hv)
  refine ⟨hc.1, ?_⟩
  rw [hc.2.1 1 (by decide)]
  decide

end GLab
